import Mathlib

/-!
Verification of the onboarding backend (Express + Prisma client-onboarding app).

This file gives a shallow embedding of the request handlers that the claims
concern, translated from the TypeScript source:

* `src/backend/src/controllers/onboarding.controller.ts` (completeStep),
* `src/backend/src/controllers/admin.controller.ts`
  (updateDocumentStatus, bulkApproveDocuments, logAdminActivity),
* the auth controller (signup, login, refresh, logout, forgotPassword,
  resetPassword),
* `src/backend/src/utils/errors.ts`, `src/backend/src/utils/jwt.ts`,
  `src/backend/src/utils/hash.ts`, and the errorHandler middleware.

Modelling conventions:

* The Prisma database is an explicit state record holding lists of rows; each
  handler is a pure function `State -> State × Except ApiError Resp`.  Errors
  thrown mid-handler return the state as mutated so far (there are no
  transactions in the source).
* Timestamps are `Nat` milliseconds since epoch; JWT `iat`/`exp` claims are
  seconds, i.e. `now / 1000`, following the jsonwebtoken library.
* A signed JWT is modelled by its payload plus the signing secret; this is
  faithful because `jwt.sign` is a deterministic injective encoding of
  (payload, secret) for a fixed algorithm and config, so two modelled tokens
  are equal exactly when the produced token strings are equal.
* bcrypt is idealised: `comparePassword p h` succeeds exactly when `h` was
  produced by `hashPassword p`.
* Random inputs (cuid row ids, `crypto.randomBytes` token strings) are passed
  in as explicit parameters.
* Database-generated columns that no modelled handler reads (`createdAt` on
  token rows, `updatedAt`) are omitted from row records.
-/

set_option maxRecDepth 4096

namespace Onboard

/-- HTTP-status-carrying error, from `src/backend/src/utils/errors.ts`
(`ApiError` with `statusCode`, `message`, `code`). -/
structure ApiError where
  statusCode : Nat
  message : String
  code : String
deriving Repr, DecidableEq

/-- `errors.badRequest` factory (`utils/errors.ts`). -/
def errors.badRequest (message : String) : ApiError :=
  { statusCode := 400, message := message, code := "BAD_REQUEST" }

/-- `errors.unauthorized` factory (`utils/errors.ts`). -/
def errors.unauthorized (message : String) : ApiError :=
  { statusCode := 401, message := message, code := "UNAUTHORIZED" }

/-- `errors.notFound` factory (`utils/errors.ts`). -/
def errors.notFound (resource : String) : ApiError :=
  { statusCode := 404, message := resource ++ " not found", code := "NOT_FOUND" }

/-- `errors.conflict` factory (`utils/errors.ts`). -/
def errors.conflict (message : String) : ApiError :=
  { statusCode := 409, message := message, code := "CONFLICT" }

/-! ### Onboarding data model (prisma schema, first migration) -/

/-- `OnboardingStatus` enum. -/
inductive OnboardingStatus where
  | PENDING
  | IN_PROGRESS
  | COMPLETED
deriving Repr, DecidableEq

/-- `StepStatus` enum. -/
inductive StepStatus where
  | PENDING
  | IN_PROGRESS
  | COMPLETED
  | SKIPPED
deriving Repr, DecidableEq

/-- One row of the global `onboarding_steps` catalog. -/
structure OnboardingStep where
  id : String
  stepNumber : Nat
  name : String := ""
  title : String := ""
  description : String := ""
  isRequired : Bool := true
deriving Repr, DecidableEq

/-- The JSON blob submitted for a step.  Only the fields that
`completeStep` reads for its step-1 side effect are modelled; the rest of
the payload is opaque to the backend. -/
structure StepData where
  firstName : Option String := none
  lastName : Option String := none
  companyName : Option String := none
  phone : Option String := none
deriving Repr, DecidableEq

/-- `onboarding_progress` row for one client (`id`/`clientId` keys are
implicit: the handlers below are modelled for a single fixed client). -/
structure OnboardingProgress where
  currentStep : Nat
  status : OnboardingStatus
  completedAt : Option Nat
deriving Repr, DecidableEq

/-- `step_progress` row, keyed by `onboardingStepId` (the
`onboardingProgressId` half of the unique key is implicit: single client). -/
structure StepProgress where
  onboardingStepId : String
  status : StepStatus
  data : Option StepData
  completedAt : Option Nat
deriving Repr, DecidableEq

/-- The client-profile columns that `completeStep`'s step-1 side effect
writes (`prisma.client.update` on firstName/lastName/companyName/phone). -/
structure ClientProfile where
  firstName : String := ""
  lastName : String := ""
  companyName : Option String := none
  phone : Option String := none
deriving Repr, DecidableEq

/-- Database state seen by the onboarding controller, projected to a single
client: the global step catalog, the client's progress row (if any), the
client's step-progress rows, and the client row's profile columns. -/
structure OnbState where
  steps : List OnboardingStep
  progress : Option OnboardingProgress
  stepProgress : List StepProgress
  client : ClientProfile
deriving Repr, DecidableEq

/-- `prisma.onboardingStep.findUnique({ where: { stepNumber } })`. -/
def findStep (st : OnbState) (stepNumber : Nat) : Option OnboardingStep :=
  st.steps.find? (fun s => s.stepNumber == stepNumber)

/-- `prisma.stepProgress.findUnique` on the (progress, step) unique key,
projected to the step id. -/
def getStepProgress (rows : List StepProgress) (stepId : String) : Option StepProgress :=
  rows.find? (fun r => r.onboardingStepId == stepId)

/-- `prisma.stepProgress.upsert` keyed on the (progress, step) unique key:
update the matching row if one exists, otherwise append a fresh row. -/
def upsertStepProgress (rows : List StepProgress) (stepId : String)
    (upd : StepProgress → StepProgress) (created : StepProgress) : List StepProgress :=
  if rows.any (fun r => r.onboardingStepId == stepId) then
    rows.map (fun r => if r.onboardingStepId == stepId then upd r else r)
  else
    rows ++ [created]

/-- JS `x.firstName || undefined`: an absent or empty string is dropped
(empty strings are falsy). -/
def orUndefined (v : Option String) : Option String :=
  match v with
  | some s => if s = "" then none else some s
  | none => none

/-- The step-1 side effect of `completeStep`: merge submitted fields onto the
client row (`prisma.client.update`, fields guarded by `|| undefined`). -/
def mergeProfile (c : ClientProfile) (d : StepData) : ClientProfile :=
  { c with
    firstName := (orUndefined d.firstName).getD c.firstName
    lastName := (orUndefined d.lastName).getD c.lastName
    companyName := ((orUndefined d.companyName).map some).getD c.companyName
    phone := ((orUndefined d.phone).map some).getD c.phone }

/-- Response body of `POST /onboarding/steps/:n/complete`. -/
structure CompleteResp where
  message : String
  currentStep : Nat
  status : OnboardingStatus
  completedAt : Option Nat
deriving Repr, DecidableEq

/-- The non-final-step success message template. -/
def stepCompletedMessage (stepNumber nextStep : Nat) : String :=
  "Step " ++ toString stepNumber ++ " completed. Proceed to step " ++ toString nextStep ++ "."

/-- The final-step success message. -/
def onboardingCompletedMessage : String := "Onboarding completed!"

/-- Error message of the no-skipping-ahead check. -/
def msgAheadOfProgress : String := "Cannot complete a step ahead of current progress"

/-- `errors.notFound` resource name for a missing catalog step. -/
def resOnboardingStep : String := "Onboarding step"

/-- The `update` arm of `completeStep`'s step-progress upsert:
`{ data: data || undefined, status: 'COMPLETED', completedAt: new Date() }`
(an absent `data` keeps the row's existing blob). -/
def completedUpd (data : Option StepData) (now : Nat) (r : StepProgress) : StepProgress :=
  { r with
    data := match data with | some d => some d | none => r.data
    status := StepStatus.COMPLETED
    completedAt := some now }

/-- The `create` arm of `completeStep`'s step-progress upsert. -/
def completedRow (stepId : String) (data : Option StepData) (now : Nat) : StepProgress :=
  { onboardingStepId := stepId
    data := data
    status := StepStatus.COMPLETED
    completedAt := some now }

/-- The client-row side effect of `completeStep`: only applied for step 1
with a present `data` body. -/
def clientAfterStep (stepNumber : Nat) (data : Option StepData)
    (c : ClientProfile) : ClientProfile :=
  if stepNumber == 1 then
    match data with
    | some d => mergeProfile c d
    | none => c
  else c

/-- `completeStep` from `onboarding.controller.ts` lines 187-308, for one
client.  `data` is the request body's `data` field (`none` when absent —
`data || undefined` keeps an existing blob on update). -/
def completeStep (st : OnbState) (stepNumber : Nat) (data : Option StepData)
    (now : Nat) : OnbState × Except ApiError CompleteResp :=
  match findStep st stepNumber with
  | none => (st, Except.error (errors.notFound resOnboardingStep))
  | some step =>
    -- get-or-create the progress row (created with currentStep 1, IN_PROGRESS)
    let progress := st.progress.getD
      { currentStep := 1, status := OnboardingStatus.IN_PROGRESS, completedAt := none }
    let st1 : OnbState := { st with progress := some progress }
    if stepNumber > progress.currentStep then
      (st1, Except.error (errors.badRequest msgAheadOfProgress))
    else
      let sp := upsertStepProgress st1.stepProgress step.id
        (completedUpd data now) (completedRow step.id data now)
      let totalSteps := st1.steps.length
      let isLastStep := stepNumber == totalSteps
      let nextStep := min (stepNumber + 1) totalSteps
      let progress1 : OnboardingProgress :=
        { progress with
          currentStep := if isLastStep then stepNumber else nextStep
          status := if isLastStep then OnboardingStatus.COMPLETED else OnboardingStatus.IN_PROGRESS
          completedAt := if isLastStep then some now else none }
      let client1 := clientAfterStep stepNumber data st1.client
      ({ st1 with progress := some progress1, stepProgress := sp, client := client1 },
       Except.ok
         { message := if isLastStep then onboardingCompletedMessage
             else stepCompletedMessage stepNumber nextStep
           currentStep := progress1.currentStep
           status := progress1.status
           completedAt := progress1.completedAt })

/-! ### Clients, documents and the admin review workflow
(`admin.controller.ts`, prisma schema + the two later migrations) -/

/-- `Role` enum on `clients`. -/
inductive Role where
  | USER
  | ADMIN
deriving Repr, DecidableEq

/-- A `clients` row. -/
structure Client where
  id : String
  email : String
  passwordHash : String := ""
  firstName : String := ""
  lastName : String := ""
  companyName : Option String := none
  phone : Option String := none
  avatarUrl : Option String := none
  emailVerified : Bool := false
  role : Role := Role.USER
  createdAt : Nat := 0
deriving Repr, DecidableEq

/-- `DocumentVerificationStatus` enum (migration
`20260118183827_add_document_verification_status`). -/
inductive DocumentVerificationStatus where
  | PENDING
  | APPROVED
  | REJECTED
deriving Repr, DecidableEq

/-- `DocumentCategory` enum. -/
inductive DocumentCategory where
  | ID_DOCUMENT
  | BUSINESS_LICENSE
  | TAX_DOCUMENT
  | PROOF_OF_ADDRESS
  | OTHER
deriving Repr, DecidableEq

/-- A `documents` row. -/
structure Document where
  id : String
  clientId : String
  fileName : String := ""
  fileUrl : String := ""
  fileKey : String := ""
  fileType : String := ""
  fileSize : Nat := 0
  category : DocumentCategory := DocumentCategory.OTHER
  verificationStatus : DocumentVerificationStatus := DocumentVerificationStatus.PENDING
  rejectionReason : Option String := none
  verifiedAt : Option Nat := none
  uploadedAt : Nat := 0
deriving Repr, DecidableEq

/-- The JSON `details` blob written by `logAdminActivity`: the union of the
object literals at its three call sites (absent keys are `none`, matching
fields JSON.stringify drops). -/
structure LogDetails where
  fileName : Option String := none
  clientEmail : Option String := none
  rejectionReason : Option String := none
  count : Option Nat := none
  documentIds : Option (List String) := none
deriving Repr, DecidableEq

/-- An `admin_activity_logs` row (migration
`20260119000710_add_admin_activity_log`). -/
structure AdminActivityLog where
  adminId : String
  action : String
  targetType : String
  targetId : String
  details : Option LogDetails
  createdAt : Nat := 0
deriving Repr, DecidableEq

/-- Database state seen by the admin controller. -/
structure AdminState where
  clients : List Client
  documents : List Document
  activityLog : List AdminActivityLog
deriving Repr, DecidableEq

/-- `logAdminActivity` helper (`admin.controller.ts` lines 23-39):
`prisma.adminActivityLog.create` — append-only. -/
def logAdminActivity (st : AdminState) (adminId action targetType targetId : String)
    (details : Option LogDetails) (now : Nat) : AdminState :=
  { st with
    activityLog := st.activityLog ++
      [{ adminId := adminId, action := action, targetType := targetType,
         targetId := targetId, details := details, createdAt := now }] }

/-- The `status` field admitted by `updateDocumentStatusSchema`
(`z.enum(['APPROVED', 'REJECTED'])`): `PENDING` is not an accepted input. -/
inductive ReviewStatus where
  | APPROVED
  | REJECTED
deriving Repr, DecidableEq

/-- Embed an accepted review status into the column enum. -/
def ReviewStatus.toVerification : ReviewStatus → DocumentVerificationStatus
  | ReviewStatus.APPROVED => DocumentVerificationStatus.APPROVED
  | ReviewStatus.REJECTED => DocumentVerificationStatus.REJECTED

/-- `status === 'REJECTED' ? rejectionReason : null` (and the `undefined`
variant in the log details — both are `none` here). -/
def rejectionReasonFor (status : ReviewStatus) (rejectionReason : Option String) :
    Option String :=
  match status with
  | ReviewStatus.REJECTED => rejectionReason
  | ReviewStatus.APPROVED => none

/-- `prisma.document.findUnique({ where: { id } })`. -/
def findDocument (st : AdminState) (id : String) : Option Document :=
  st.documents.find? (fun d => d.id == id)

/-- `prisma.client.findUnique({ where: { id } })`, over a client list. -/
def findClientById (clients : List Client) (id : String) : Option Client :=
  clients.find? (fun c => c.id == id)

/-- Action tag for an approval. -/
def actionApprove : String := "APPROVE_DOCUMENT"

/-- Action tag for a rejection. -/
def actionReject : String := "REJECT_DOCUMENT"

/-- Action tag for a bulk approval. -/
def actionBulkApprove : String := "BULK_APPROVE"

/-- `targetType` used for document updates. -/
def targetDocument : String := "DOCUMENT"

/-- `targetId` used for bulk approvals. -/
def targetBulk : String := "bulk"

/-- `errors.notFound` resource name for a missing document. -/
def resDocument : String := "Document"

/-- Error message when no listed document is pending. -/
def msgNoPendingDocs : String := "No pending documents found to approve"

/-- Zod's message for `z.array(...).min(1)` failing on an empty array,
surfaced through `errors.badRequest(validation.error.errors[0].message)`. -/
def msgArrayMin1 : String := "Array must contain at least 1 element(s)"

/-- `updateDocumentStatus` (`admin.controller.ts` lines 160-216).  The body
has already passed `updateDocumentStatusSchema`, so `status` is a
`ReviewStatus`.  The returned value is the handler's `data` payload (the
updated document row). -/
def updateDocumentStatus (st : AdminState) (id : String) (status : ReviewStatus)
    (rejectionReason : Option String) (adminId : String) (now : Nat) :
    AdminState × Except ApiError Document :=
  match findDocument st id with
  | none => (st, Except.error (errors.notFound resDocument))
  | some document =>
    let newStatus := status.toVerification
    let newReason := rejectionReasonFor status rejectionReason
    let updatedDoc :=
      { document with
        verificationStatus := newStatus, rejectionReason := newReason,
        verifiedAt := some now }
    let st1 :=
      { st with
        documents := st.documents.map (fun d =>
          if d.id == id then
            { d with
              verificationStatus := newStatus, rejectionReason := newReason,
              verifiedAt := some now }
          else d) }
    let details : LogDetails :=
      { fileName := some document.fileName
        clientEmail := (findClientById st.clients document.clientId).map (fun c => c.email)
        rejectionReason := rejectionReasonFor status rejectionReason }
    let action :=
      match status with
      | ReviewStatus.APPROVED => actionApprove
      | ReviewStatus.REJECTED => actionReject
    (logAdminActivity st1 adminId action targetDocument id (some details) now,
     Except.ok updatedDoc)

/-- The documents among `documentIds` whose status is currently `PENDING`
(`prisma.document.findMany({ where: { id: { in: documentIds },
verificationStatus: 'PENDING' } })`). -/
def pendingAmong (st : AdminState) (documentIds : List String) : List Document :=
  st.documents.filter (fun d =>
    documentIds.contains d.id &&
      d.verificationStatus == DocumentVerificationStatus.PENDING)

/-- Response payload of `POST /admin/documents/bulk-approve`. -/
structure BulkApproveResp where
  approvedCount : Nat
  message : String
deriving Repr, DecidableEq

/-- `bulkApproveDocuments` (`admin.controller.ts` lines 222-281).
`bulkApproveSchema` requires a non-empty `documentIds` array; an empty one
fails validation and is rejected with `errors.badRequest`. -/
def bulkApproveDocuments (st : AdminState) (documentIds : List String)
    (adminId : String) (now : Nat) : AdminState × Except ApiError BulkApproveResp :=
  if documentIds.isEmpty then
    (st, Except.error (errors.badRequest msgArrayMin1))
  else
    let documents := pendingAmong st documentIds
    if documents.length == 0 then
      (st, Except.error (errors.badRequest msgNoPendingDocs))
    else
      let ids := documents.map (fun d => d.id)
      let st1 :=
        { st with
          documents := st.documents.map (fun d =>
            if ids.contains d.id then
              { d with
                verificationStatus := DocumentVerificationStatus.APPROVED,
                verifiedAt := some now }
            else d) }
      let st2 := logAdminActivity st1 adminId actionBulkApprove targetDocument targetBulk
        (some { count := some documents.length, documentIds := some ids }) now
      (st2, Except.ok
        { approvedCount := documents.length
          message := toString documents.length ++ " document(s) approved" })

/-- One PATCH `/admin/documents/:id` call, for iterating sequences of
status updates. -/
structure UpdateCall where
  id : String
  status : ReviewStatus
  rejectionReason : Option String := none
  adminId : String := ""
  now : Nat := 0
deriving Repr, DecidableEq

/-- Apply a sequence of `updateDocumentStatus` calls, threading the state. -/
def applyUpdates (st : AdminState) : List UpdateCall → AdminState
  | [] => st
  | c :: cs =>
    applyUpdates (updateDocumentStatus st c.id c.status c.rejectionReason c.adminId c.now).1 cs

/-- "Document `docId` is not PENDING": every stored row with that id has a
non-PENDING verification status. -/
def noPendingFor (st : AdminState) (docId : String) : Prop :=
  ∀ d ∈ st.documents, d.id = docId →
    d.verificationStatus ≠ DocumentVerificationStatus.PENDING

/-! ### Auth controller (`utils/jwt.ts`, `utils/hash.ts`, auth handlers)

Times are `Nat` milliseconds; JWT claims (`iat`, `exp`) are in seconds,
`now / 1000`, as in the jsonwebtoken library.  A signed token is its payload
plus the secret that signed it: `jwt.sign` is a deterministic encoding of
these for a fixed algorithm and config, so equality of the modelled tokens
coincides with equality of the produced token strings. -/

/-- `internal` error factory (`utils/errors.ts`). -/
def errors.internal (message : String) : ApiError :=
  { statusCode := 500, message := message, code := "INTERNAL_ERROR" }

/-- The `type` claim of a token (`'access' | 'refresh'`), which also
selects the signing secret. -/
inductive TokenType where
  | access
  | refresh
deriving Repr, DecidableEq

/-- The claims carried by a signed token: the caller-supplied payload plus
the `iat` second timestamp added by `jwt.sign`. -/
structure TokenPayload where
  clientId : String
  email : String
  type : TokenType
  iat : Nat
deriving Repr, DecidableEq

/-- A signed JWT: payload plus which of the two secrets signed it.  The
`exp` claim is `iat` plus the configured lifetime of the signing secret's
token kind, so it is not a separate field. -/
structure Jwt where
  payload : TokenPayload
  signedWith : TokenType
deriving Repr, DecidableEq

/-- `JWT_ACCESS_EXPIRES_IN` default `'15m'`, in seconds. -/
def accessExpiresInSec : Nat := 15 * 60

/-- `JWT_REFRESH_EXPIRES_IN` default `'7d'`, in seconds. -/
def refreshExpiresInSec : Nat := 7 * 24 * 60 * 60

/-- `getRefreshTokenExpiry()` offset: `'7d'` in milliseconds. -/
def refreshExpiresInMs : Nat := 7 * 24 * 60 * 60 * 1000

/-- `generateAccessToken` (`utils/jwt.ts`). -/
def generateAccessToken (clientId email : String) (nowMs : Nat) : Jwt :=
  { payload := { clientId := clientId, email := email, type := TokenType.access,
                 iat := nowMs / 1000 }
    signedWith := TokenType.access }

/-- `generateRefreshToken` (`utils/jwt.ts`). -/
def generateRefreshToken (clientId email : String) (nowMs : Nat) : Jwt :=
  { payload := { clientId := clientId, email := email, type := TokenType.refresh,
                 iat := nowMs / 1000 }
    signedWith := TokenType.refresh }

/-- The error classes `jwt.verify` throws. -/
inductive JwtError where
  | JsonWebTokenError
  | TokenExpiredError
deriving Repr, DecidableEq

/-- `verifyRefreshToken` (`utils/jwt.ts`): `jwt.verify(token, refreshSecret)`
— rejects a token signed with a different secret, and an `exp` claim in the
past (`exp = iat + lifetime` as set by `jwt.sign` with the refresh
config). -/
def verifyRefreshToken (token : Jwt) (nowMs : Nat) : Except JwtError TokenPayload :=
  if token.signedWith ≠ TokenType.refresh then
    Except.error JwtError.JsonWebTokenError
  else if token.payload.iat + refreshExpiresInSec ≤ nowMs / 1000 then
    Except.error JwtError.TokenExpiredError
  else
    Except.ok token.payload

/-- How the `errorHandler` middleware renders a thrown `jwt.verify` error:
both map to HTTP 401. -/
def renderJwtError : JwtError → ApiError
  | JwtError.JsonWebTokenError =>
    { statusCode := 401, message := "Invalid token", code := "INVALID_TOKEN" }
  | JwtError.TokenExpiredError =>
    { statusCode := 401, message := "Token has expired", code := "TOKEN_EXPIRED" }

/-- A `refresh_tokens` row. -/
structure RefreshTokenRow where
  id : String
  token : Jwt
  clientId : String
  expiresAt : Nat
deriving Repr, DecidableEq

/-- A `password_reset_tokens` row. -/
structure ResetTokenRow where
  id : String
  token : String
  clientId : String
  expiresAt : Nat
deriving Repr, DecidableEq

/-- An `email_verification_tokens` row. -/
structure EmailVerificationTokenRow where
  id : String
  token : String
  clientId : String
  expiresAt : Nat
deriving Repr, DecidableEq

/-- The `onboarding_progress` row created by signup's nested create. -/
structure OnboardingRow where
  clientId : String
  currentStep : Nat
  status : OnboardingStatus
deriving Repr, DecidableEq

/-- Database state seen by the auth controller. -/
structure AuthState where
  clients : List Client
  refreshTokens : List RefreshTokenRow
  passwordResetTokens : List ResetTokenRow
  emailVerificationTokens : List EmailVerificationTokenRow
  onboarding : List OnboardingRow
deriving Repr, DecidableEq

/-- `hashPassword` (`utils/hash.ts`): bcrypt idealised as an injective tag,
so that `comparePassword p h` succeeds exactly when `h` was produced from
`p` (bcrypt's contract, minus hash collisions and salting). -/
def hashPassword (password : String) : String :=
  "bcrypt$" ++ password

/-- `comparePassword` (`utils/hash.ts`). -/
def comparePassword (password hash : String) : Bool :=
  hash == hashPassword password

/-- JS `email.toLowerCase()`, restricted to the ASCII case mapping
(`Char.toLower` lowers exactly the basic latin letters, as
`String.prototype.toLowerCase` does on ASCII input). -/
def toLowerCase (s : String) : String :=
  String.mk (s.data.map Char.toLower)

/-- `prisma.client.findUnique({ where: { email } })`. -/
def findClientByEmail (st : AuthState) (email : String) : Option Client :=
  st.clients.find? (fun c => c.email == email)

/-- The token pair returned by signup/login/refresh. -/
structure TokensResp where
  accessToken : Jwt
  refreshToken : Jwt
deriving Repr, DecidableEq

/-- A `{ success, message }` response body. -/
structure MsgResp where
  success : Bool
  message : String
deriving Repr, DecidableEq

/-- The client projection returned by signup (its `select`). -/
structure SignupView where
  id : String
  email : String
  firstName : String
  lastName : String
  createdAt : Nat
deriving Repr, DecidableEq

/-- Response payload of `POST /auth/signup`. -/
structure SignupResp where
  client : SignupView
  tokens : TokensResp
deriving Repr, DecidableEq

/-- The client projection returned by login (its `select`, minus the
stripped `passwordHash`). -/
structure LoginView where
  id : String
  email : String
  firstName : String
  lastName : String
  companyName : Option String
  avatarUrl : Option String
deriving Repr, DecidableEq

/-- Response payload of `POST /auth/login`. -/
structure LoginResp where
  client : LoginView
  tokens : TokensResp
deriving Repr, DecidableEq

/-- The random/generated inputs consumed by `signup`: the new client's cuid,
the two token-row cuids, and the `crypto.randomBytes(32)` hex string. -/
structure FreshSignup where
  clientId : String
  refreshRowId : String
  verificationRowId : String
  verificationToken : String
deriving Repr, DecidableEq

/-- The random/generated inputs consumed by `forgotPassword`. -/
structure FreshReset where
  resetRowId : String
  resetToken : String
deriving Repr, DecidableEq

/-- Conflict message for a duplicate signup email. -/
def msgEmailRegistered : String := "Email already registered"

/-- Login failure message (identical for unknown email and bad password). -/
def msgInvalidCreds : String := "Invalid email or password"

/-- Refresh failure for a token whose `type` claim is not `refresh`. -/
def msgInvalidTokenType : String := "Invalid token type"

/-- Refresh failure for a token with no stored row. -/
def msgInvalidRefresh : String := "Invalid refresh token"

/-- Refresh failure for a stored but expired row. -/
def msgRefreshExpired : String := "Refresh token expired"

/-- The one `forgotPassword` success message, returned whether or not the
email exists. -/
def msgForgotResponse : String :=
  "If an account with that email exists, a password reset link has been sent."

/-- `resetPassword` failure for an unknown token. -/
def msgResetInvalid : String := "Invalid or expired reset token"

/-- `resetPassword` failure for an expired token. -/
def msgResetExpired : String := "Reset token has expired"

/-- `resetPassword` success message. -/
def msgResetSuccess : String :=
  "Password reset successfully. Please log in with your new password."

/-- `signup` (auth controller): email-uniqueness check on the lowercased
email, client + onboarding-progress creation, token issuance, refresh-token
and email-verification rows.  The verification email is sent through a
helper that catches failures, so it does not affect the result. -/
def signup (st : AuthState) (email password firstName lastName : String)
    (fresh : FreshSignup) (now : Nat) : AuthState × Except ApiError SignupResp :=
  match findClientByEmail st (toLowerCase email) with
  | some _ => (st, Except.error (errors.conflict msgEmailRegistered))
  | none =>
    let passwordHash := hashPassword password
    let client : Client :=
      { id := fresh.clientId, email := toLowerCase email, passwordHash := passwordHash,
        firstName := firstName, lastName := lastName, createdAt := now }
    let st1 : AuthState :=
      { st with
        clients := st.clients ++ [client]
        onboarding := st.onboarding ++
          [{ clientId := fresh.clientId, currentStep := 1,
             status := OnboardingStatus.PENDING }] }
    let accessToken := generateAccessToken client.id client.email now
    let refreshToken := generateRefreshToken client.id client.email now
    let st2 : AuthState :=
      { st1 with
        refreshTokens := st1.refreshTokens ++
          [{ id := fresh.refreshRowId, token := refreshToken, clientId := client.id,
             expiresAt := now + refreshExpiresInMs }] }
    let st3 : AuthState :=
      { st2 with
        emailVerificationTokens := st2.emailVerificationTokens ++
          [{ id := fresh.verificationRowId, token := fresh.verificationToken,
             clientId := client.id, expiresAt := now + 24 * 60 * 60 * 1000 }] }
    (st3, Except.ok
      { client := { id := client.id, email := client.email, firstName := firstName,
                    lastName := lastName, createdAt := now }
        tokens := { accessToken := accessToken, refreshToken := refreshToken } })

/-- `login` (auth controller): lookup by the lowercased email, bcrypt
comparison, token issuance, refresh-row creation.  Both failure paths throw
the same `unauthorized` error. -/
def login (st : AuthState) (email password : String) (freshRowId : String)
    (now : Nat) : AuthState × Except ApiError LoginResp :=
  match findClientByEmail st (toLowerCase email) with
  | none => (st, Except.error (errors.unauthorized msgInvalidCreds))
  | some client =>
    if comparePassword password client.passwordHash then
      let accessToken := generateAccessToken client.id client.email now
      let refreshToken := generateRefreshToken client.id client.email now
      let st1 : AuthState :=
        { st with
          refreshTokens := st.refreshTokens ++
            [{ id := freshRowId, token := refreshToken, clientId := client.id,
               expiresAt := now + refreshExpiresInMs }] }
      (st1, Except.ok
        { client := { id := client.id, email := client.email,
                      firstName := client.firstName, lastName := client.lastName,
                      companyName := client.companyName, avatarUrl := client.avatarUrl }
          tokens := { accessToken := accessToken, refreshToken := refreshToken } })
    else
      (st, Except.error (errors.unauthorized msgInvalidCreds))

/-- `refresh` (auth controller lines 187-252): verify the presented JWT,
check its `type` claim, look the row up, reject and delete an expired row,
otherwise rotate: delete the row, mint a new pair, persist the new refresh
token.  A thrown `jwt.verify` error reaches the client through
`errorHandler` as a 401 (`renderJwtError`).  The impossible
missing-client branch (the row's `clientId` is a foreign key) returns the
500 the error middleware would produce. -/
def refresh (st : AuthState) (refreshToken : Jwt) (now : Nat)
    (freshRowId : String) : AuthState × Except ApiError TokensResp :=
  match verifyRefreshToken refreshToken now with
  | Except.error e => (st, Except.error (renderJwtError e))
  | Except.ok payload =>
    if payload.type ≠ TokenType.refresh then
      (st, Except.error (errors.unauthorized msgInvalidTokenType))
    else
      match st.refreshTokens.find? (fun r => r.token == refreshToken) with
      | none => (st, Except.error (errors.unauthorized msgInvalidRefresh))
      | some storedToken =>
        match findClientById st.clients storedToken.clientId with
        | none => (st, Except.error (errors.internal "Internal server error"))
        | some client =>
          if storedToken.expiresAt < now then
            ({ st with
               refreshTokens := st.refreshTokens.filter
                 (fun r => r.id != storedToken.id) },
             Except.error (errors.unauthorized msgRefreshExpired))
          else
            let newAccessToken := generateAccessToken client.id client.email now
            let newRefreshToken := generateRefreshToken client.id client.email now
            ({ st with
               refreshTokens :=
                 (st.refreshTokens.filter (fun r => r.id != storedToken.id)) ++
                 [{ id := freshRowId, token := newRefreshToken, clientId := client.id,
                    expiresAt := now + refreshExpiresInMs }] },
             Except.ok { accessToken := newAccessToken, refreshToken := newRefreshToken })

/-- `forgotPassword` (auth controller lines 293-341): both the
unknown-email and known-email paths answer with the same success envelope;
the known-email path replaces the client's reset tokens with a fresh one.
The reset email is sent through the failure-swallowing mail helper. -/
def forgotPassword (st : AuthState) (email : String) (fresh : FreshReset)
    (now : Nat) : AuthState × Except ApiError MsgResp :=
  match findClientByEmail st (toLowerCase email) with
  | none => (st, Except.ok { success := true, message := msgForgotResponse })
  | some client =>
    let st1 : AuthState :=
      { st with
        passwordResetTokens := st.passwordResetTokens.filter
          (fun r => r.clientId != client.id) }
    let st2 : AuthState :=
      { st1 with
        passwordResetTokens := st1.passwordResetTokens ++
          [{ id := fresh.resetRowId, token := fresh.resetToken, clientId := client.id,
             expiresAt := now + 60 * 60 * 1000 }] }
    (st2, Except.ok { success := true, message := msgForgotResponse })

/-- `resetPassword` (auth controller lines 347-397): consume a stored,
unexpired reset token; set the new password hash; delete all of the
client's reset tokens and all of its refresh tokens. -/
def resetPassword (st : AuthState) (token password : String) (now : Nat) :
    AuthState × Except ApiError MsgResp :=
  match st.passwordResetTokens.find? (fun r => r.token == token) with
  | none => (st, Except.error (errors.badRequest msgResetInvalid))
  | some resetToken =>
    if resetToken.expiresAt < now then
      ({ st with
         passwordResetTokens := st.passwordResetTokens.filter
           (fun r => r.id != resetToken.id) },
       Except.error (errors.badRequest msgResetExpired))
    else
      let passwordHash := hashPassword password
      let st1 : AuthState :=
        { st with
          clients := st.clients.map (fun c =>
            if c.id == resetToken.clientId then { c with passwordHash := passwordHash }
            else c) }
      let st2 : AuthState :=
        { st1 with
          passwordResetTokens := st1.passwordResetTokens.filter
            (fun r => r.clientId != resetToken.clientId) }
      let st3 : AuthState :=
        { st2 with
          refreshTokens := st2.refreshTokens.filter
            (fun r => r.clientId != resetToken.clientId) }
      (st3, Except.ok { success := true, message := msgResetSuccess })

end Onboard
namespace Onboard

/-! ### Concrete fixtures used by witnesses and counterexamples -/

/-- Catalog step 1 of the 4-step seed. -/
def exStep1 : OnboardingStep := { id := "s1", stepNumber := 1 }

/-- Catalog step 2. -/
def exStep2 : OnboardingStep := { id := "s2", stepNumber := 2 }

/-- Catalog step 3. -/
def exStep3 : OnboardingStep := { id := "s3", stepNumber := 3 }

/-- Catalog step 4 (final). -/
def exStep4 : OnboardingStep := { id := "s4", stepNumber := 4 }

/-- The seeded 4-step catalog. -/
def exSteps : List OnboardingStep := [exStep1, exStep2, exStep3, exStep4]

/-- A sample step payload. -/
def exData : StepData := { firstName := some "A" }

/-- A completed step-progress row for step 1. -/
def exRow1 : StepProgress :=
  { onboardingStepId := "s1", status := StepStatus.COMPLETED, data := none,
    completedAt := some 10 }

/-- A fully-completed progress row (currentStep 4, COMPLETED). -/
def exC2P : OnboardingProgress :=
  { currentStep := 4, status := OnboardingStatus.COMPLETED, completedAt := some 40 }

/-- State of a client who finished onboarding, with step 1 COMPLETED. -/
def exC2St : OnbState :=
  { steps := exSteps, progress := some exC2P, stepProgress := [exRow1], client := {} }

/-- A mid-onboarding progress row (currentStep 2). -/
def exOrdP : OnboardingProgress :=
  { currentStep := 2, status := OnboardingStatus.IN_PROGRESS, completedAt := none }

/-- State of a client at step 2 of 4. -/
def exOrdSt : OnbState :=
  { steps := exSteps, progress := some exOrdP, stepProgress := [], client := {} }

/-- A progress row sitting at the final step. -/
def exFinP : OnboardingProgress :=
  { currentStep := 4, status := OnboardingStatus.IN_PROGRESS, completedAt := none }

/-- State of a client at the final step 4 of 4. -/
def exFinSt : OnbState :=
  { steps := exSteps, progress := some exFinP, stepProgress := [], client := {} }

end Onboard
namespace Onboard

/-- An admin account fixture. -/
def exAdminUser : Client := { id := "adm", email := "admin@ex.com", role := Role.ADMIN }

/-- The client owning the fixture documents. -/
def exOwner : Client := { id := "c1", email := "owner@ex.com" }

/-- Document A, PENDING. -/
def exDocA : Document := { id := "A", clientId := "c1", fileName := "a.pdf" }

/-- Document B, already APPROVED. -/
def exDocB : Document :=
  { id := "B", clientId := "c1", fileName := "b.pdf",
    verificationStatus := DocumentVerificationStatus.APPROVED, verifiedAt := some 5 }

/-- Document C, PENDING. -/
def exDocC : Document := { id := "C", clientId := "c1", fileName := "c.pdf" }

/-- Admin-console fixture state: documents [A(pending), B(approved), C(pending)]. -/
def exAdmSt : AdminState :=
  { clients := [exAdminUser, exOwner], documents := [exDocA, exDocB, exDocC],
    activityLog := [] }

/-- A pair of review calls on document B: reject it, then approve it again. -/
def exCalls : List UpdateCall :=
  [ { id := "B", status := ReviewStatus.REJECTED, rejectionReason := some "blurry",
      adminId := "adm", now := 99 },
    { id := "B", status := ReviewStatus.APPROVED, adminId := "adm", now := 100 } ]

end Onboard
namespace Onboard

/-- A stored client account. -/
def exAuthClient : Client :=
  { id := "c1", email := "alice@example.com", passwordHash := hashPassword "Secure123",
    firstName := "Alice", lastName := "A" }

/-- A refresh token issued to that client at t = 1000ms (iat second 1). -/
def exRefreshTok : Jwt := generateRefreshToken "c1" "alice@example.com" 1000

/-- The stored row for `exRefreshTok`. -/
def exRefreshRow : RefreshTokenRow :=
  { id := "r1", token := exRefreshTok, clientId := "c1",
    expiresAt := 1000 + refreshExpiresInMs }

/-- Auth fixture state: one client, one live refresh token, one unexpired
password-reset token. -/
def exAuthSt : AuthState :=
  { clients := [exAuthClient]
    refreshTokens := [exRefreshRow]
    passwordResetTokens := [{ id := "p1", token := "reset-tok", clientId := "c1",
                              expiresAt := 5000 }]
    emailVerificationTokens := []
    onboarding := [] }

/-- An empty auth state (no accounts). -/
def exAuthStEmpty : AuthState :=
  { clients := [], refreshTokens := [], passwordResetTokens := [],
    emailVerificationTokens := [], onboarding := [] }

/-- Fresh ids fed to `signup` in witnesses. -/
def exFreshSignup : FreshSignup :=
  { clientId := "c2", refreshRowId := "r9", verificationRowId := "v9",
    verificationToken := "verif-tok" }

/-- Fresh ids fed to `forgotPassword` in witnesses. -/
def exFreshReset : FreshReset := { resetRowId := "p9", resetToken := "reset-tok-9" }

end Onboard
namespace Onboard

/-! ### Helper lemmas -/

/-- Looking a step up in an upserted step-progress list finds the updated
row when one existed, and the freshly created row otherwise. -/
theorem getStepProgress_upsert (rows : List StepProgress) (stepId : String)
    (upd : StepProgress → StepProgress) (created : StepProgress)
    (hc : created.onboardingStepId = stepId)
    (hu : ∀ r, (upd r).onboardingStepId = r.onboardingStepId) :
    getStepProgress (upsertStepProgress rows stepId upd created) stepId =
      some (match getStepProgress rows stepId with
            | some r => upd r
            | none => created) := by
  induction rows with
  | nil => simp [upsertStepProgress, getStepProgress, hc]
  | cons r rs ih =>
    by_cases h : r.onboardingStepId = stepId
    · simp [upsertStepProgress, getStepProgress, h, hu r]
    · by_cases h2 : rs.any (fun x => x.onboardingStepId == stepId)
      · simpa [upsertStepProgress, getStepProgress, h, h2] using ih
      · simpa [upsertStepProgress, getStepProgress, h, h2] using ih

/-- Evaluation of `completeStep` on a non-final step at or before the
current step: the step row is upserted to COMPLETED and the progress row is
rewritten to `(stepNumber + 1, IN_PROGRESS, no completion timestamp)`. -/
theorem completeStep_nonlast (st : OnbState) (p : OnboardingProgress)
    (step : OnboardingStep) (j : Nat) (d : Option StepData) (now : Nat)
    (hp : st.progress = some p)
    (hf : findStep st j = some step)
    (hle : j ≤ p.currentStep)
    (hlt : j < st.steps.length) :
    completeStep st j d now =
      ({ steps := st.steps
         progress := some { currentStep := j + 1, status := OnboardingStatus.IN_PROGRESS,
                            completedAt := none }
         stepProgress := upsertStepProgress st.stepProgress step.id
           (completedUpd d now) (completedRow step.id d now)
         client := clientAfterStep j d st.client },
       Except.ok { message := stepCompletedMessage j (j + 1), currentStep := j + 1,
                   status := OnboardingStatus.IN_PROGRESS, completedAt := none }) := by
  have hgt : ¬ (j > p.currentStep) := by omega
  have hne : ¬ (j == st.steps.length) = true := by simp; omega
  have hmin : min (j + 1) st.steps.length = j + 1 := by omega
  unfold completeStep
  rw [hf]
  simp only [hp, Option.getD_some]
  rw [if_neg hgt]
  simp only [hne, if_false, Bool.false_eq_true, hmin]

/-- Evaluation of `completeStep` on the final catalog step: the progress row
becomes `(N, COMPLETED, now)` — `currentStep` is not advanced past `N`. -/
theorem completeStep_last (st : OnbState) (p : OnboardingProgress)
    (step : OnboardingStep) (d : Option StepData) (now : Nat)
    (hp : st.progress = some p)
    (hN : p.currentStep = st.steps.length)
    (hf : findStep st st.steps.length = some step) :
    completeStep st st.steps.length d now =
      ({ steps := st.steps
         progress := some { currentStep := st.steps.length,
                            status := OnboardingStatus.COMPLETED, completedAt := some now }
         stepProgress := upsertStepProgress st.stepProgress step.id
           (completedUpd d now) (completedRow step.id d now)
         client := clientAfterStep st.steps.length d st.client },
       Except.ok { message := onboardingCompletedMessage, currentStep := st.steps.length,
                   status := OnboardingStatus.COMPLETED, completedAt := some now }) := by
  have hgt : ¬ (st.steps.length > p.currentStep) := by omega
  unfold completeStep
  rw [hf]
  simp only [hp, Option.getD_some]
  rw [if_neg hgt]
  simp only [beq_self_eq_true, if_true]

/-! ### Claim theorems -/

/-- C4: with `currentStep = k`, completing a catalog step `s > k` fails
BadRequest and leaves the state unchanged; completing step `k` itself when
`k` is not the last step succeeds, marks step `k`'s StepProgress COMPLETED
with a completion timestamp and the given data, and advances `currentStep`
to `k + 1` with overall status IN_PROGRESS. -/
theorem completeStep_ordering
    (st : OnbState) (p : OnboardingProgress) (d : StepData) (now : Nat)
    (hp : st.progress = some p) :
    (∀ s step, findStep st s = some step → p.currentStep < s →
      completeStep st s (some d) now =
        (st, Except.error (errors.badRequest msgAheadOfProgress))) ∧
    (∀ step, findStep st p.currentStep = some step → p.currentStep < st.steps.length →
      (completeStep st p.currentStep (some d) now).2 =
        Except.ok { message := stepCompletedMessage p.currentStep (p.currentStep + 1),
                    currentStep := p.currentStep + 1,
                    status := OnboardingStatus.IN_PROGRESS, completedAt := none } ∧
      (completeStep st p.currentStep (some d) now).1.progress =
        some { currentStep := p.currentStep + 1, status := OnboardingStatus.IN_PROGRESS,
               completedAt := none } ∧
      ∃ row, getStepProgress (completeStep st p.currentStep (some d) now).1.stepProgress step.id
          = some row ∧
        row.status = StepStatus.COMPLETED ∧ row.completedAt = some now ∧ row.data = some d) := by
  constructor
  · intro s step hstep hlt
    have hgt : s > p.currentStep := hlt
    have hst : ({ st with progress := some p } : OnbState) = st := by rw [← hp]
    unfold completeStep
    rw [hstep]
    simp only [hp, Option.getD_some]
    rw [if_pos hgt, hst]
  · intro step hstep hlt
    have h := completeStep_nonlast st p step p.currentStep (some d) now hp hstep (le_refl _) hlt
    rw [h]
    refine ⟨rfl, rfl, ?_⟩
    have hu := getStepProgress_upsert st.stepProgress step.id
      (completedUpd (some d) now) (completedRow step.id (some d) now) rfl (fun r => rfl)
    simp only [hu]
    cases getStepProgress st.stepProgress step.id with
    | none => exact ⟨_, rfl, rfl, rfl, rfl⟩
    | some r => exact ⟨_, rfl, rfl, rfl, rfl⟩

/-- C4 witness: a client at step 2 of 4 cannot complete step 3, and
completing step 2 advances to step 3. -/
theorem completeStep_ordering_witness :
    (completeStep exOrdSt 3 (some exData) 50 =
      (exOrdSt, Except.error (errors.badRequest msgAheadOfProgress))) ∧
    ((completeStep exOrdSt 2 (some exData) 50).2 =
      Except.ok { message := stepCompletedMessage 2 3, currentStep := 3,
                  status := OnboardingStatus.IN_PROGRESS, completedAt := none }) := by
  have h := completeStep_ordering exOrdSt exOrdP exData 50 rfl
  exact ⟨h.1 3 exStep3 (by decide) (by decide), (h.2 exStep2 (by decide) (by decide)).1⟩

/-- C2 counterexample: a client who finished onboarding (currentStep 4,
status COMPLETED) re-completes step 1; the call succeeds but `currentStep`
regresses to 2 and the status falls back to IN_PROGRESS — the claim's
"leaves currentStep and status unchanged" is false on the code. -/
theorem completeStep_earlier_step_regresses_progress :
    (completeStep exC2St 1 (some exData) 50).2.isOk = true ∧
    exC2St.progress =
      some { currentStep := 4, status := OnboardingStatus.COMPLETED, completedAt := some 40 } ∧
    (completeStep exC2St 1 (some exData) 50).1.progress =
      some { currentStep := 2, status := OnboardingStatus.IN_PROGRESS, completedAt := none } := by
  decide

/-- C2 amended: re-completing an already-completed step `j` earlier than
`currentStep = c` succeeds and overwrites that step's StepProgress row, but
it rewrites the progress row to `(j + 1, IN_PROGRESS, no completedAt)` —
regressing `currentStep` below `c` and moving a COMPLETED status back to
IN_PROGRESS. -/
theorem completeStep_earlier_step_overwrites_but_regresses
    (st : OnbState) (p : OnboardingProgress) (step : OnboardingStep)
    (row0 : StepProgress) (j : Nat) (d : StepData) (now : Nat)
    (hp : st.progress = some p)
    (hf : findStep st j = some step)
    (hj : j < p.currentStep)
    (hc : p.currentStep ≤ st.steps.length)
    (hrow : getStepProgress st.stepProgress step.id = some row0)
    (_hdone : row0.status = StepStatus.COMPLETED) :
    (completeStep st j (some d) now).2 =
      Except.ok { message := stepCompletedMessage j (j + 1), currentStep := j + 1,
                  status := OnboardingStatus.IN_PROGRESS, completedAt := none } ∧
    (completeStep st j (some d) now).1.progress =
      some { currentStep := j + 1, status := OnboardingStatus.IN_PROGRESS, completedAt := none } ∧
    getStepProgress (completeStep st j (some d) now).1.stepProgress step.id =
      some { row0 with data := some d, status := StepStatus.COMPLETED,
                       completedAt := some now } := by
  have h := completeStep_nonlast st p step j (some d) now hp hf (le_of_lt hj)
    (lt_of_lt_of_le hj hc)
  rw [h]
  refine ⟨rfl, rfl, ?_⟩
  have hu := getStepProgress_upsert st.stepProgress step.id
    (completedUpd (some d) now) (completedRow step.id (some d) now) rfl (fun r => rfl)
  simp only [hu, hrow]
  rfl

/-- C2 amended witness: at the fixture state, re-completing step 1 yields
currentStep 2, IN_PROGRESS, and the overwritten step-1 row. -/
theorem completeStep_earlier_step_overwrites_but_regresses_witness :
    (completeStep exC2St 1 (some exData) 50).2 =
      Except.ok { message := stepCompletedMessage 1 2, currentStep := 2,
                  status := OnboardingStatus.IN_PROGRESS, completedAt := none } ∧
    (completeStep exC2St 1 (some exData) 50).1.progress =
      some { currentStep := 2, status := OnboardingStatus.IN_PROGRESS, completedAt := none } ∧
    getStepProgress (completeStep exC2St 1 (some exData) 50).1.stepProgress "s1" =
      some { onboardingStepId := "s1", status := StepStatus.COMPLETED, data := some exData,
             completedAt := some 50 } := by
  have h := completeStep_earlier_step_overwrites_but_regresses exC2St exC2P exStep1 exRow1
    1 exData 50 rfl (by decide) (by decide) (by decide) (by decide) (by decide)
  exact h

/-- C3: completing the final catalog step sets the overall status COMPLETED
with a completion timestamp and keeps `currentStep` at the final step
number; repeating the call succeeds and is idempotent (status stays
COMPLETED, `currentStep` stays pinned). -/
theorem completeStep_final_step_terminal
    (st : OnbState) (p : OnboardingProgress) (step : OnboardingStep)
    (d d2 : Option StepData) (now now2 : Nat)
    (hp : st.progress = some p)
    (hN : p.currentStep = st.steps.length)
    (hf : findStep st st.steps.length = some step) :
    ((completeStep st st.steps.length d now).2 =
      Except.ok { message := onboardingCompletedMessage, currentStep := st.steps.length,
                  status := OnboardingStatus.COMPLETED, completedAt := some now }) ∧
    ((completeStep st st.steps.length d now).1.progress =
      some { currentStep := st.steps.length, status := OnboardingStatus.COMPLETED,
             completedAt := some now }) ∧
    ((completeStep (completeStep st st.steps.length d now).1 st.steps.length d2 now2).2 =
      Except.ok { message := onboardingCompletedMessage, currentStep := st.steps.length,
                  status := OnboardingStatus.COMPLETED, completedAt := some now2 }) ∧
    ((completeStep (completeStep st st.steps.length d now).1 st.steps.length d2 now2).1.progress =
      some { currentStep := st.steps.length, status := OnboardingStatus.COMPLETED,
             completedAt := some now2 }) := by
  have h1 := completeStep_last st p step d now hp hN hf
  have hsteps : (completeStep st st.steps.length d now).1.steps = st.steps := by rw [h1]
  have hlen : (completeStep st st.steps.length d now).1.steps.length = st.steps.length := by
    rw [hsteps]
  have hp' : (completeStep st st.steps.length d now).1.progress =
      some { currentStep := st.steps.length, status := OnboardingStatus.COMPLETED,
             completedAt := some now } := by rw [h1]
  have hf' : findStep (completeStep st st.steps.length d now).1
      ((completeStep st st.steps.length d now).1.steps.length) = some step := by
    unfold findStep at hf ⊢
    rw [hsteps]
    exact hf
  have h2 := completeStep_last (completeStep st st.steps.length d now).1
    { currentStep := st.steps.length, status := OnboardingStatus.COMPLETED,
      completedAt := some now } step d2 now2 hp' (by rw [hlen]) hf'
  rw [hlen] at h2
  refine ⟨by rw [h1], hp', by rw [h2], by rw [h2]⟩

/-- C3 witness: at the final-step fixture, completing step 4 twice pins
currentStep at 4 with status COMPLETED both times. -/
theorem completeStep_final_step_terminal_witness :
    ((completeStep exFinSt 4 none 50).2 =
      Except.ok { message := onboardingCompletedMessage, currentStep := 4,
                  status := OnboardingStatus.COMPLETED, completedAt := some 50 }) ∧
    ((completeStep (completeStep exFinSt 4 none 50).1 4 none 60).2 =
      Except.ok { message := onboardingCompletedMessage, currentStep := 4,
                  status := OnboardingStatus.COMPLETED, completedAt := some 60 }) ∧
    ((completeStep (completeStep exFinSt 4 none 50).1 4 none 60).1.progress =
      some { currentStep := 4, status := OnboardingStatus.COMPLETED,
             completedAt := some 60 }) := by
  have h := completeStep_final_step_terminal exFinSt exFinP exStep4 none none 50 60
    rfl (by decide) (by decide)
  exact ⟨h.1, h.2.2.1, h.2.2.2⟩

end Onboard
namespace Onboard

/-- `find?` by id commutes with mapping an id-preserving update over the
document list. -/
theorem find?_doc_map (docs : List Document) (id : String) (f : Document → Document)
    (hf : ∀ d, (f d).id = d.id) :
    (docs.map f).find? (fun d => d.id == id) = (docs.find? (fun d => d.id == id)).map f := by
  induction docs with
  | nil => rfl
  | cons d ds ih =>
    by_cases h : d.id = id
    · simp [List.find?_cons, hf, h]
    · simp [List.find?_cons, hf, h, ih]

/-- Evaluation of `updateDocumentStatus` when the document exists: the row
is rewritten, and one audit entry is appended. -/
theorem updateDocumentStatus_found (st : AdminState) (id : String) (document : Document)
    (status : ReviewStatus) (rr : Option String) (adminId : String) (now : Nat)
    (hfind : findDocument st id = some document) :
    updateDocumentStatus st id status rr adminId now =
      ({ clients := st.clients
         documents := st.documents.map (fun d =>
           if d.id == id then
             { d with
               verificationStatus := status.toVerification,
               rejectionReason := rejectionReasonFor status rr,
               verifiedAt := some now }
           else d)
         activityLog := st.activityLog ++
           [{ adminId := adminId
              action := match status with
                | ReviewStatus.APPROVED => actionApprove
                | ReviewStatus.REJECTED => actionReject
              targetType := targetDocument
              targetId := id
              details := some
                { fileName := some document.fileName
                  clientEmail :=
                    (findClientById st.clients document.clientId).map (fun c => c.email)
                  rejectionReason := rejectionReasonFor status rr }
              createdAt := now }] },
       Except.ok
         { document with
           verificationStatus := status.toVerification,
           rejectionReason := rejectionReasonFor status rr,
           verifiedAt := some now }) := by
  unfold updateDocumentStatus
  rw [hfind]
  rfl

end Onboard
namespace Onboard

/-- The map applied to the document list by `updateDocumentStatus`. -/
theorem updateDoc_id_preserved (id : String) (ns : DocumentVerificationStatus)
    (nr : Option String) (now : Nat) (d : Document) :
    ((fun d : Document =>
      if d.id == id then
        { d with verificationStatus := ns, rejectionReason := nr, verifiedAt := some now }
      else d) d).id = d.id := by
  dsimp only
  split <;> rfl

/-- Looking up a document after `updateDocumentStatus` rewrote it returns
the updated row. -/
theorem findDocument_after_update (st : AdminState) (id : String) (document : Document)
    (status : ReviewStatus) (rr : Option String) (adminId : String) (now1 : Nat)
    (hfind : findDocument st id = some document) :
    findDocument (updateDocumentStatus st id status rr adminId now1).1 id =
      some { document with
             verificationStatus := status.toVerification,
             rejectionReason := rejectionReasonFor status rr,
             verifiedAt := some now1 } := by
  have hfind2 : st.documents.find? (fun d => d.id == id) = some document := hfind
  have hid : (document.id == id) = true := by
    have h := List.find?_some hfind2
    simpa using h
  have heq : document.id = id := by simpa using hid
  rw [updateDocumentStatus_found st id document status rr adminId now1 hfind]
  unfold findDocument
  dsimp only
  rw [find?_doc_map _ id _ (updateDoc_id_preserved id _ _ now1)]
  rw [hfind2]
  simp [heq]

/-- C7: updating an existing document sets its status, `verifiedAt`, and
`rejectionReason` (kept only for REJECTED, cleared to null otherwise), and
appends exactly one audit entry with the matching action tag; applying
APPROVED twice is not an error, leaves the status APPROVED, and produces
two audit entries. -/
theorem updateDocumentStatus_behavior
    (st : AdminState) (id : String) (document : Document)
    (rr : Option String) (adminId : String) (now now2 : Nat)
    (hfind : findDocument st id = some document) :
    (∀ status, ∃ updatedDoc,
      (updateDocumentStatus st id status rr adminId now).2 = Except.ok updatedDoc ∧
      updatedDoc.verificationStatus = status.toVerification ∧
      updatedDoc.verifiedAt = some now ∧
      updatedDoc.rejectionReason = rejectionReasonFor status rr ∧
      findDocument (updateDocumentStatus st id status rr adminId now).1 id = some updatedDoc ∧
      ∃ entry,
        (updateDocumentStatus st id status rr adminId now).1.activityLog =
          st.activityLog ++ [entry] ∧
        entry.action = (match status with
          | ReviewStatus.APPROVED => actionApprove
          | ReviewStatus.REJECTED => actionReject)) ∧
    ((updateDocumentStatus
        (updateDocumentStatus st id ReviewStatus.APPROVED rr adminId now).1
        id ReviewStatus.APPROVED rr adminId now2).2.isOk = true ∧
     (findDocument (updateDocumentStatus
        (updateDocumentStatus st id ReviewStatus.APPROVED rr adminId now).1
        id ReviewStatus.APPROVED rr adminId now2).1 id).map
          (fun d => d.verificationStatus) = some DocumentVerificationStatus.APPROVED ∧
     (updateDocumentStatus
        (updateDocumentStatus st id ReviewStatus.APPROVED rr adminId now).1
        id ReviewStatus.APPROVED rr adminId now2).1.activityLog.length =
       st.activityLog.length + 2) := by
  constructor
  · intro status
    exact ⟨_, by rw [updateDocumentStatus_found st id document status rr adminId now hfind],
      rfl, rfl, rfl, findDocument_after_update st id document status rr adminId now hfind,
      _, by rw [updateDocumentStatus_found st id document status rr adminId now hfind], rfl⟩
  · have h1 := updateDocumentStatus_found st id document ReviewStatus.APPROVED rr adminId now hfind
    have hfind1 := findDocument_after_update st id document ReviewStatus.APPROVED rr adminId now hfind
    have h2 := updateDocumentStatus_found
      (updateDocumentStatus st id ReviewStatus.APPROVED rr adminId now).1 id
      { document with
        verificationStatus := ReviewStatus.APPROVED.toVerification,
        rejectionReason := rejectionReasonFor ReviewStatus.APPROVED rr,
        verifiedAt := some now }
      ReviewStatus.APPROVED rr adminId now2 hfind1
    have hfind3 := findDocument_after_update
      (updateDocumentStatus st id ReviewStatus.APPROVED rr adminId now).1 id
      { document with
        verificationStatus := ReviewStatus.APPROVED.toVerification,
        rejectionReason := rejectionReasonFor ReviewStatus.APPROVED rr,
        verifiedAt := some now }
      ReviewStatus.APPROVED rr adminId now2 hfind1
    refine ⟨?_, ?_, ?_⟩
    · rw [h2]
      rfl
    · rw [hfind3]
      rfl
    · have hlog1 : (updateDocumentStatus st id ReviewStatus.APPROVED rr adminId now).1.activityLog.length
          = st.activityLog.length + 1 := by
        rw [h1]
        simp
      rw [h2]
      dsimp only
      rw [List.length_append, hlog1]
      rfl

end Onboard
namespace Onboard

/-- A single `updateDocumentStatus` call never writes PENDING: it preserves
"document `docId` has left PENDING". -/
theorem updateDocumentStatus_preserves_nonpending
    (st : AdminState) (id : String) (status : ReviewStatus) (rr : Option String)
    (adminId : String) (now : Nat) (docId : String)
    (h : noPendingFor st docId) :
    noPendingFor (updateDocumentStatus st id status rr adminId now).1 docId := by
  unfold updateDocumentStatus
  cases hfind : findDocument st id with
  | none => exact h
  | some doc =>
    dsimp only [logAdminActivity]
    intro d hd hdid
    obtain ⟨d0, hd0, rfl⟩ := List.mem_map.mp hd
    by_cases hm : (d0.id == id) = true
    · dsimp only
      rw [if_pos hm]
      cases status <;> simp [ReviewStatus.toVerification]
    · dsimp only at hdid ⊢
      rw [if_neg hm] at hdid ⊢
      exact h d0 hd0 hdid

/-- C5 amended: no sequence of `updateDocumentStatus` calls ever returns a
document's verificationStatus to PENDING (the input schema only admits
APPROVED and REJECTED); however the non-PENDING statuses are not terminal —
APPROVED and REJECTED freely overwrite each other (see the
counterexample). -/
theorem updateDocumentStatus_never_returns_to_pending
    (st : AdminState) (calls : List UpdateCall) (docId : String)
    (h : noPendingFor st docId) :
    noPendingFor (applyUpdates st calls) docId := by
  induction calls generalizing st with
  | nil => exact h
  | cons c cs ih =>
    exact ih _ (updateDocumentStatus_preserves_nonpending st c.id c.status c.rejectionReason
      c.adminId c.now docId h)

/-- C5 amended witness: document B (APPROVED) stays non-PENDING across a
reject-then-approve call sequence. -/
theorem updateDocumentStatus_never_returns_to_pending_witness :
    noPendingFor (applyUpdates exAdmSt exCalls) "B" :=
  updateDocumentStatus_never_returns_to_pending exAdmSt exCalls "B"
    (by unfold noPendingFor; decide)

/-- C5 counterexample: document B is APPROVED, yet
`updateDocumentStatus(B, REJECTED, ...)` succeeds and moves it to REJECTED —
refuting "a document that has left PENDING never moves to a different
non-PENDING status". -/
theorem updateDocumentStatus_approved_to_rejected :
    (findDocument exAdmSt "B").map (fun d => d.verificationStatus) =
      some DocumentVerificationStatus.APPROVED ∧
    (updateDocumentStatus exAdmSt "B" ReviewStatus.REJECTED (some "blurry") "adm" 99).2.isOk
      = true ∧
    (findDocument
        (updateDocumentStatus exAdmSt "B" ReviewStatus.REJECTED (some "blurry") "adm" 99).1
        "B").map (fun d => d.verificationStatus) =
      some DocumentVerificationStatus.REJECTED := by
  decide

/-- C7 witness: approving document A twice at the fixture state succeeds,
leaves it APPROVED, and writes two audit entries. -/
theorem updateDocumentStatus_behavior_witness :
    ((updateDocumentStatus (updateDocumentStatus exAdmSt "A" ReviewStatus.APPROVED none
        "adm" 50).1 "A" ReviewStatus.APPROVED none "adm" 60).2.isOk = true) ∧
    ((findDocument (updateDocumentStatus (updateDocumentStatus exAdmSt "A"
        ReviewStatus.APPROVED none "adm" 50).1 "A" ReviewStatus.APPROVED none "adm" 60).1
        "A").map (fun d => d.verificationStatus) =
      some DocumentVerificationStatus.APPROVED) ∧
    ((updateDocumentStatus (updateDocumentStatus exAdmSt "A" ReviewStatus.APPROVED none
        "adm" 50).1 "A" ReviewStatus.APPROVED none "adm" 60).1.activityLog.length = 2) := by
  have h := updateDocumentStatus_behavior exAdmSt "A" exDocA none "adm" 50 60 (by decide)
  exact ⟨h.2.1, h.2.2.1, h.2.2.2⟩

end Onboard
namespace Onboard

/-- C6: bulk approval approves exactly the PENDING documents among the given
ids (setting APPROVED with a verification timestamp), leaves every other
document unchanged, reports their count, and logs one BULK_APPROVE entry
with the count and ids; if no listed document is PENDING it fails BadRequest
and changes nothing. -/
theorem bulkApprove_approves_exactly_pending_subset
    (st : AdminState) (documentIds : List String) (adminId : String) (now : Nat)
    (hne : documentIds ≠ [])
    (hnodup : (st.documents.map (fun d => d.id)).Nodup) :
    (pendingAmong st documentIds ≠ [] →
      (bulkApproveDocuments st documentIds adminId now).2 =
        Except.ok { approvedCount := (pendingAmong st documentIds).length,
                    message := toString (pendingAmong st documentIds).length ++
                      " document(s) approved" } ∧
      (bulkApproveDocuments st documentIds adminId now).1.documents =
        st.documents.map (fun d =>
          if documentIds.contains d.id ∧
              d.verificationStatus = DocumentVerificationStatus.PENDING then
            { d with verificationStatus := DocumentVerificationStatus.APPROVED,
                     verifiedAt := some now }
          else d) ∧
      (bulkApproveDocuments st documentIds adminId now).1.activityLog =
        st.activityLog ++
          [{ adminId := adminId, action := actionBulkApprove,
             targetType := targetDocument, targetId := targetBulk,
             details := some { count := some (pendingAmong st documentIds).length,
                               documentIds := some ((pendingAmong st documentIds).map
                                 (fun d => d.id)) },
             createdAt := now }]) ∧
    (pendingAmong st documentIds = [] →
      bulkApproveDocuments st documentIds adminId now =
        (st, Except.error (errors.badRequest msgNoPendingDocs))) := by
  have hie : documentIds.isEmpty = false := by
    cases documentIds with
    | nil => exact absurd rfl hne
    | cons x xs => rfl
  constructor
  · intro hpend
    have hlen : ((pendingAmong st documentIds).length == 0) = false := by
      cases hp : pendingAmong st documentIds with
      | nil => exact absurd hp hpend
      | cons x xs => rfl
    unfold bulkApproveDocuments
    rw [hie]
    rw [if_neg Bool.false_ne_true]
    dsimp only [logAdminActivity]
    rw [hlen]
    rw [if_neg Bool.false_ne_true]
    refine ⟨rfl, ?_, rfl⟩
    apply List.map_congr_left
    intro d hd
    by_cases hcond : documentIds.contains d.id = true ∧
        d.verificationStatus = DocumentVerificationStatus.PENDING
    · have hdp : d ∈ pendingAmong st documentIds := by
        unfold pendingAmong
        refine List.mem_filter.mpr ⟨hd, ?_⟩
        rw [hcond.1, hcond.2]
        rfl
      have hin : ((pendingAmong st documentIds).map (fun d => d.id)).contains d.id = true :=
        List.elem_iff.mpr (List.mem_map_of_mem _ hdp)
      rw [if_pos hin, if_pos hcond]
    · have hnin :
          ¬ (((pendingAmong st documentIds).map (fun d => d.id)).contains d.id = true) := by
        intro hh
        obtain ⟨p, hp, hpid⟩ := List.mem_map.mp (List.elem_iff.mp hh)
        have hpd : p = d := List.inj_on_of_nodup_map hnodup
          (List.mem_of_mem_filter hp) hd hpid
        subst hpd
        have h2 := (List.mem_filter.mp hp).2
        rw [Bool.and_eq_true] at h2
        apply hcond
        refine ⟨h2.1, ?_⟩
        simpa using h2.2
      rw [if_neg hnin, if_neg hcond]
  · intro hpend
    unfold bulkApproveDocuments
    rw [hie]
    rw [if_neg Bool.false_ne_true]
    dsimp only
    rw [hpend]
    rfl

end Onboard
namespace Onboard

/-- C6 witness: bulk-approving [A(pending), B(approved), C(pending)]
approves exactly A and C, reports approvedCount = 2, and leaves B's row
untouched. -/
theorem bulkApprove_approves_exactly_pending_subset_witness :
    ((bulkApproveDocuments exAdmSt ["A", "B", "C"] "adm" 70).2 =
      Except.ok { approvedCount := 2, message := "2 document(s) approved" }) ∧
    ((bulkApproveDocuments exAdmSt ["A", "B", "C"] "adm" 70).1.documents =
      [{ exDocA with verificationStatus := DocumentVerificationStatus.APPROVED,
                     verifiedAt := some 70 },
       exDocB,
       { exDocC with verificationStatus := DocumentVerificationStatus.APPROVED,
                     verifiedAt := some 70 }]) ∧
    ((bulkApproveDocuments exAdmSt ["A", "B", "C"] "adm" 70).1.activityLog.length = 1) := by
  have h := (bulkApprove_approves_exactly_pending_subset exAdmSt ["A", "B", "C"] "adm" 70
    (by decide) (by decide)).1 (by decide)
  refine ⟨?_, ?_, ?_⟩
  · rw [h.1]
    rfl
  · rw [h.2.1]
    decide
  · rw [h.2.2]
    decide

end Onboard
namespace Onboard

/-- `Char.ofNat` of a valid scalar value round-trips through `toNat`. -/
theorem toNat_ofNat_valid (n : Nat) (h : Char.isValidCharNat n) :
    (Char.ofNat n).toNat = n := by
  rw [Char.ofNat, dif_pos h]
  simp [Char.ofNatAux, Char.toNat, UInt32.ofNat', UInt32.toNat, BitVec.toNat_ofNatLt]

/-- Unfolding equation for `Char.toLower`. -/
theorem toLower_eq (c : Char) :
    c.toLower = if 65 ≤ c.toNat ∧ c.toNat ≤ 90 then Char.ofNat (c.toNat + 32) else c :=
  rfl

/-- The ASCII lower-casing of a character is idempotent. -/
theorem charToLower_idem (c : Char) : c.toLower.toLower = c.toLower := by
  by_cases h : 65 ≤ c.toNat ∧ c.toNat ≤ 90
  · have hv : Char.isValidCharNat (c.toNat + 32) := Or.inl (by omega)
    have h1 : c.toLower = Char.ofNat (c.toNat + 32) := by rw [toLower_eq, if_pos h]
    have h2 : c.toLower.toNat = c.toNat + 32 := by rw [h1, toNat_ofNat_valid _ hv]
    rw [toLower_eq c.toLower, if_neg]
    intro hh
    omega
  · have h1 : c.toLower = c := by rw [toLower_eq, if_neg h]
    rw [h1]
    exact h1

/-- JS `toLowerCase` (ASCII) is idempotent. -/
theorem toLowerCase_idem (s : String) : toLowerCase (toLowerCase s) = toLowerCase s := by
  unfold toLowerCase
  congr 1
  show (s.data.map Char.toLower).map Char.toLower = s.data.map Char.toLower
  rw [List.map_map]
  exact List.map_congr_left (fun a _ => charToLower_idem a)

end Onboard
namespace Onboard

/-- C8: the success response of `forgotPassword` is identical whether or not
a client with the given email exists — the response reveals nothing about
account existence. -/
theorem forgotPassword_email_enumeration_resistant
    (st1 st2 : AuthState) (email1 email2 : String) (f1 f2 : FreshReset)
    (now1 now2 : Nat)
    (_hex : (findClientByEmail st1 (toLowerCase email1)).isSome = true)
    (hnex : findClientByEmail st2 (toLowerCase email2) = none) :
    (forgotPassword st1 email1 f1 now1).2 = (forgotPassword st2 email2 f2 now2).2 := by
  unfold forgotPassword
  rw [hnex]
  cases hfind : findClientByEmail st1 (toLowerCase email1) <;> rfl

/-- C8 witness: a known and an unknown email receive the same response. -/
theorem forgotPassword_email_enumeration_resistant_witness :
    (forgotPassword exAuthSt "ALICE@example.com" exFreshReset 1000).2 =
      (forgotPassword exAuthStEmpty "ghost@example.com" exFreshReset 2000).2 :=
  forgotPassword_email_enumeration_resistant exAuthSt exAuthStEmpty
    "ALICE@example.com" "ghost@example.com" exFreshReset exFreshReset 1000 2000
    (by decide) (by decide)

/-- C10: signup stores the lowercased email, and login is invariant under
lowercasing the submitted email (it keys every lookup on
`email.toLowerCase()`). -/
theorem login_email_case_insensitive
    (st : AuthState) (email password firstName lastName : String)
    (fresh : FreshSignup) (rid : String) (now : Nat) :
    (findClientByEmail st (toLowerCase email) = none →
      ∃ client, (signup st email password firstName lastName fresh now).1.clients =
        st.clients ++ [client] ∧ client.email = toLowerCase email) ∧
    (login st email password rid now = login st (toLowerCase email) password rid now) := by
  constructor
  · intro hnew
    unfold signup
    rw [hnew]
    exact ⟨_, rfl, rfl⟩
  · unfold login
    rw [toLowerCase_idem]

/-- C10 witness: signing up with a mixed-case email stores it lowercased,
and login behaves identically on a shouted email. -/
theorem login_email_case_insensitive_witness :
    (∃ client,
      (signup exAuthStEmpty "Bob@Example.COM" "Secure123" "Bob" "B"
          exFreshSignup 1000).1.clients = exAuthStEmpty.clients ++ [client] ∧
      client.email = toLowerCase "Bob@Example.COM") ∧
    (login exAuthSt "ALICE@example.com" "Secure123" "r9" 2000 =
      login exAuthSt "alice@example.com" "Secure123" "r9" 2000) := by
  have h1 := login_email_case_insensitive exAuthStEmpty "Bob@Example.COM" "Secure123"
    "Bob" "B" exFreshSignup "r9" 1000
  have h2 := login_email_case_insensitive exAuthSt "ALICE@example.com" "Secure123"
    "Alice" "A" exFreshSignup "r9" 2000
  refine ⟨h1.1 (by decide), ?_⟩
  have h3 := h2.2
  rw [show toLowerCase "ALICE@example.com" = "alice@example.com" from by decide] at h3
  exact h3

end Onboard
namespace Onboard

/-- A refresh call for a token with no stored row fails with a 401 and
leaves the state unchanged, whatever the JWT verification outcome. -/
theorem refresh_no_row_fails (st : AuthState) (t : Jwt) (now : Nat) (rid : String)
    (hnone : st.refreshTokens.find? (fun r => r.token == t) = none) :
    ∃ e, (refresh st t now rid).2 = Except.error e ∧ e.statusCode = 401 ∧
      (refresh st t now rid).1 = st := by
  unfold refresh
  cases hv : verifyRefreshToken t now with
  | error e => cases e <;> exact ⟨_, rfl, rfl, rfl⟩
  | ok payload =>
    dsimp only
    by_cases ht : payload.type ≠ TokenType.refresh
    · rw [if_pos ht]
      exact ⟨_, rfl, rfl, rfl⟩
    · rw [if_neg ht, hnone]
      exact ⟨_, rfl, rfl, rfl⟩

/-- Evaluation of `refresh` on a verified, stored, unexpired token: the old
row is deleted and a new pair minted at `now` is persisted and returned. -/
theorem refresh_rotates (st : AuthState) (tok : Jwt) (row : RefreshTokenRow)
    (client : Client) (now : Nat) (rid : String)
    (hrow : st.refreshTokens.find? (fun r => r.token == tok) = some row)
    (hsig : tok.signedWith = TokenType.refresh)
    (htype : tok.payload.type = TokenType.refresh)
    (hjwt : now / 1000 < tok.payload.iat + refreshExpiresInSec)
    (hdb : ¬ (row.expiresAt < now))
    (hcl : findClientById st.clients row.clientId = some client) :
    refresh st tok now rid =
      ({ st with
         refreshTokens :=
           (st.refreshTokens.filter (fun r => r.id != row.id)) ++
           [{ id := rid, token := generateRefreshToken client.id client.email now,
              clientId := client.id, expiresAt := now + refreshExpiresInMs }] },
       Except.ok { accessToken := generateAccessToken client.id client.email now,
                   refreshToken := generateRefreshToken client.id client.email now }) := by
  have hv : verifyRefreshToken tok now = Except.ok tok.payload := by
    unfold verifyRefreshToken
    rw [if_neg (fun hne => hne hsig), if_neg (by omega)]
  unfold refresh
  rw [hv]
  dsimp only
  rw [if_neg (fun hne => hne htype)]
  rw [hrow]
  dsimp only
  rw [hcl]
  dsimp only
  rw [if_neg hdb]

/-- Evaluation of `refresh` on a verified, stored but database-expired
token: the row is deleted and the call fails Unauthorized. -/
theorem refresh_expired_deletes (st : AuthState) (tok : Jwt)
    (row : RefreshTokenRow) (client : Client) (now : Nat) (rid : String)
    (hrow : st.refreshTokens.find? (fun r => r.token == tok) = some row)
    (hsig : tok.signedWith = TokenType.refresh)
    (htype : tok.payload.type = TokenType.refresh)
    (hjwt : now / 1000 < tok.payload.iat + refreshExpiresInSec)
    (hdb : row.expiresAt < now)
    (hcl : findClientById st.clients row.clientId = some client) :
    refresh st tok now rid =
      ({ st with
         refreshTokens := st.refreshTokens.filter (fun r => r.id != row.id) },
       Except.error (errors.unauthorized msgRefreshExpired)) := by
  have hv : verifyRefreshToken tok now = Except.ok tok.payload := by
    unfold verifyRefreshToken
    rw [if_neg (fun hne => hne hsig), if_neg (by omega)]
  unfold refresh
  rw [hv]
  dsimp only
  rw [if_neg (fun hne => hne htype)]
  rw [hrow]
  dsimp only
  rw [hcl]
  dsimp only
  rw [if_pos hdb]

end Onboard
namespace Onboard

/-- C9: a successful password reset deletes every reset token and every
refresh token of the client, so any refresh token that belonged to the
client before the reset fails with a 401 when presented to `refresh` — the
reset logs the client out of all devices. -/
theorem resetPassword_revokes_all_refresh_tokens
    (st : AuthState) (row : ResetTokenRow) (token password : String) (now : Nat)
    (hrow : st.passwordResetTokens.find? (fun r => r.token == token) = some row)
    (hexp : ¬ (row.expiresAt < now)) :
    ((resetPassword st token password now).2 =
      Except.ok { success := true, message := msgResetSuccess }) ∧
    (∀ x ∈ (resetPassword st token password now).1.passwordResetTokens,
      x.clientId ≠ row.clientId) ∧
    (∀ x ∈ (resetPassword st token password now).1.refreshTokens,
      x.clientId ≠ row.clientId) ∧
    (∀ t now2 rid,
      (∀ x ∈ st.refreshTokens, x.token = t → x.clientId = row.clientId) →
      ∃ e, (refresh (resetPassword st token password now).1 t now2 rid).2 =
        Except.error e ∧ e.statusCode = 401) := by
  have heval : resetPassword st token password now =
      ({ st with
         clients := st.clients.map (fun c =>
           if c.id == row.clientId then { c with passwordHash := hashPassword password }
           else c)
         passwordResetTokens := st.passwordResetTokens.filter
           (fun r => r.clientId != row.clientId)
         refreshTokens := st.refreshTokens.filter
           (fun r => r.clientId != row.clientId) },
       Except.ok { success := true, message := msgResetSuccess }) := by
    unfold resetPassword
    rw [hrow]
    dsimp only
    rw [if_neg hexp]
  refine ⟨by rw [heval], ?_, ?_, ?_⟩
  · rw [heval]
    intro x hx
    have hm := List.mem_filter.mp hx
    simpa using hm.2
  · rw [heval]
    intro x hx
    have hm := List.mem_filter.mp hx
    simpa using hm.2
  · intro t now2 rid hall
    have hnone : (resetPassword st token password now).1.refreshTokens.find?
        (fun r => r.token == t) = none := by
      rw [heval]
      apply List.find?_eq_none.mpr
      intro x hx hbeq
      have hm := List.mem_filter.mp hx
      have hxt : x.token = t := by simpa using hbeq
      have hcid : x.clientId = row.clientId := hall x hm.1 hxt
      have hne : (x.clientId != row.clientId) = true := hm.2
      simp [hcid] at hne
    obtain ⟨e, he, hs, _⟩ := refresh_no_row_fails _ t now2 rid hnone
    exact ⟨e, he, hs⟩

/-- C9 witness: after resetting Alice's password, her previously-issued
refresh token is rejected with a 401. -/
theorem resetPassword_revokes_all_refresh_tokens_witness :
    ((resetPassword exAuthSt "reset-tok" "NewPass456" 2000).2 =
      Except.ok { success := true, message := msgResetSuccess }) ∧
    (∃ e, (refresh (resetPassword exAuthSt "reset-tok" "NewPass456" 2000).1
        exRefreshTok 2500 "r5").2 = Except.error e ∧ e.statusCode = 401) := by
  have h := resetPassword_revokes_all_refresh_tokens exAuthSt
    { id := "p1", token := "reset-tok", clientId := "c1", expiresAt := 5000 }
    "reset-tok" "NewPass456" 2000 (by decide) (by decide)
  exact ⟨h.1, h.2.2.2 exRefreshTok 2500 "r5" (by decide)⟩

end Onboard
namespace Onboard

/-- C1 counterexample: `jwt.sign` is deterministic, so a refresh performed
within the same iat second as the presented token's issuance re-mints a
byte-identical refresh token.  Here the stored token was minted at t=1000ms
(iat second 1) and refreshed at t=1500ms (still second 1): the "new" token
equals the old one, and replaying the old token afterwards succeeds against
the re-created row — refuting both "T' ≠ T" and "replay fails
Unauthorized". -/
theorem refresh_same_second_reissues_identical_token :
    ((refresh exAuthSt exRefreshTok 1500 "r2").2.toOption =
      some { accessToken := generateAccessToken "c1" "alice@example.com" 1500,
             refreshToken := exRefreshTok }) ∧
    ((refresh (refresh exAuthSt exRefreshTok 1500 "r2").1 exRefreshTok 1600 "r3").2.isOk
      = true) := by
  decide

/-- C1 amended: for a stored, unexpired refresh token presented at a time
whose iat second differs from the token's own, `refresh` succeeds, deletes
the token's row, returns and persists a fresh pair with `T' ≠ T`, and any
replay of the consumed token fails 401; a token with no stored row fails
401; a stored but expired token is deleted and fails 401.  (When the
rotation lands in the same iat second, `jwt.sign` reproduces the identical
token — see the counterexample.) -/
theorem refresh_rotation_distinct_iat
    (st : AuthState) (tok : Jwt) (row : RefreshTokenRow) (client : Client)
    (now : Nat) (rid : String)
    (htoks : (st.refreshTokens.map (fun r => r.token)).Nodup)
    (hrow : st.refreshTokens.find? (fun r => r.token == tok) = some row)
    (hsig : tok.signedWith = TokenType.refresh)
    (htype : tok.payload.type = TokenType.refresh)
    (hjwt : now / 1000 < tok.payload.iat + refreshExpiresInSec)
    (hdb : ¬ (row.expiresAt < now))
    (hcl : findClientById st.clients row.clientId = some client)
    (hfresh : tok.payload.iat ≠ now / 1000) :
    ((refresh st tok now rid).2 =
      Except.ok { accessToken := generateAccessToken client.id client.email now,
                  refreshToken := generateRefreshToken client.id client.email now }) ∧
    (generateRefreshToken client.id client.email now ≠ tok) ∧
    ((refresh st tok now rid).1.refreshTokens.find? (fun r => r.token == tok) = none) ∧
    ({ id := rid, token := generateRefreshToken client.id client.email now,
       clientId := client.id, expiresAt := now + refreshExpiresInMs } ∈
      (refresh st tok now rid).1.refreshTokens) ∧
    (∀ now2 rid2, ∃ e, (refresh (refresh st tok now rid).1 tok now2 rid2).2 =
      Except.error e ∧ e.statusCode = 401) ∧
    (∀ t now2 rid2, st.refreshTokens.find? (fun r => r.token == t) = none →
      ∃ e, (refresh st t now2 rid2).2 = Except.error e ∧ e.statusCode = 401) ∧
    (∀ tok2 row2 client2 now2 rid2,
      st.refreshTokens.find? (fun r => r.token == tok2) = some row2 →
      tok2.signedWith = TokenType.refresh →
      tok2.payload.type = TokenType.refresh →
      now2 / 1000 < tok2.payload.iat + refreshExpiresInSec →
      row2.expiresAt < now2 →
      findClientById st.clients row2.clientId = some client2 →
      refresh st tok2 now2 rid2 =
        ({ st with
           refreshTokens := st.refreshTokens.filter (fun r => r.id != row2.id) },
         Except.error (errors.unauthorized msgRefreshExpired))) := by
  have hmain := refresh_rotates st tok row client now rid hrow hsig htype hjwt hdb hcl
  have hrowmem : row ∈ st.refreshTokens := List.mem_of_find?_eq_some hrow
  have hrowtok : row.token = tok := by
    have h := List.find?_some hrow
    simpa using h
  have hnetok : generateRefreshToken client.id client.email now ≠ tok := by
    intro he
    apply hfresh
    rw [← he]
    rfl
  have hfind_none : (refresh st tok now rid).1.refreshTokens.find?
      (fun r => r.token == tok) = none := by
    rw [hmain]
    dsimp only
    apply List.find?_eq_none.mpr
    intro x hx hbeq
    have hxt : x.token = tok := by simpa using hbeq
    rcases List.mem_append.mp hx with hxf | hxn
    · have hm := List.mem_filter.mp hxf
      have hxeq : x = row := by
        apply List.inj_on_of_nodup_map htoks hm.1 hrowmem
        rw [hxt, hrowtok]
      have hxid := hm.2
      rw [hxeq] at hxid
      simp at hxid
    · rw [List.mem_singleton] at hxn
      apply hnetok
      rw [← hxt, hxn]
  refine ⟨by rw [hmain], hnetok, hfind_none, ?_, ?_, ?_, ?_⟩
  · rw [hmain]
    dsimp only
    exact List.mem_append_right _ (by simp)
  · intro now2 rid2
    obtain ⟨e, he, hs, _⟩ := refresh_no_row_fails _ tok now2 rid2 hfind_none
    exact ⟨e, he, hs⟩
  · intro t now2 rid2 hnone
    obtain ⟨e, he, hs, _⟩ := refresh_no_row_fails st t now2 rid2 hnone
    exact ⟨e, he, hs⟩
  · intro tok2 row2 client2 now2 rid2 h1 h2 h3 h4 h5 h6
    exact refresh_expired_deletes st tok2 row2 client2 now2 rid2 h1 h2 h3 h4 h5 h6

/-- C1 amended witness: refreshing the stored token at t=2500ms (iat second
2 ≠ 1) rotates it, and replaying the consumed token at t=2600ms fails 401. -/
theorem refresh_rotation_distinct_iat_witness :
    ((refresh exAuthSt exRefreshTok 2500 "r2").2 =
      Except.ok { accessToken := generateAccessToken "c1" "alice@example.com" 2500,
                  refreshToken := generateRefreshToken "c1" "alice@example.com" 2500 }) ∧
    (generateRefreshToken "c1" "alice@example.com" 2500 ≠ exRefreshTok) ∧
    ((refresh exAuthSt exRefreshTok 2500 "r2").1.refreshTokens.find?
      (fun r => r.token == exRefreshTok) = none) ∧
    (∃ e, (refresh (refresh exAuthSt exRefreshTok 2500 "r2").1 exRefreshTok 2600 "r3").2 =
      Except.error e ∧ e.statusCode = 401) := by
  have h := refresh_rotation_distinct_iat exAuthSt exRefreshTok exRefreshRow exAuthClient
    2500 "r2" (by decide) (by decide) (by decide) (by decide) (by decide) (by decide)
    (by decide) (by decide)
  exact ⟨h.1, h.2.1, h.2.2.1, h.2.2.2.2.1 2600 "r3"⟩

end Onboard
